import Mathlib

/-!
Shallow embedding of the CD_Bot repository (src/bot.py, src/handlers.py,
src/strain_data.py): a Telegram storefront bot that lets a user browse a
strain catalog, build a cart, pick payment method and shipping country,
and submit an order into a SQLite ledger, notifying an operator chat.

Modelling conventions:
* Python ints are `Int`; Python floats used for money are exact rationals
  (`Rat`) — all monetary constants in the source (80, 60, 40, 100, 5%) are
  exactly representable, and the claims under study are about the exact
  arithmetic structure of the pricing formula.
* The SQLite `orders` table is a `Ledger`: a list of `Order` rows plus the
  AUTOINCREMENT counter.  `datetime.now()` timestamps are an abstract `Nat`
  clock value passed in as `now`.
* The per-user `CART[uid]` dict is a `Session`; absence of the uid key is
  `Option.none`.  Telegram I/O (reply_text, reply_photo, edit_text,
  send_message to the admin chat) is a list of `Effect`s; keyboard layouts
  and exact presentation strings are abbreviated where they carry no logic
  (message texts are shortened but kept distinguishing).
* Callback-query data strings ("qty_3", "remove_0", "strain_2", ...) are
  modelled as an already-parsed `Event`; the `int(...)` parse of the numeric
  suffix is reflected in the `Int` payload (Python `int` accepts a sign).
* Fallible Python operations (KeyError on a missing dict key, IndexError on
  list indexing, NameError on the undefined `context` global in
  `handle_callback_query_from_text`) return `Except PyError`.  An aborted
  handler discards its partial session mutation in this model; no claim
  under study observes the session after an uncaught exception.
* `log_order` (appends to a log file) and the HTTP health-check thread are
  pure I/O glue and are not modelled.
-/

/-- One cart line, as stored in `CART[uid]["items"]`:
a dict `\x7b"strain": ..., "quantity": ...\x7d`. -/
structure CartLine where
  strain : String
  quantity : Int
  deriving DecidableEq, Repr

/-- A row of the SQLite `orders` table (handlers.py `init_db`). -/
structure Order where
  oid : Nat
  timestamp : Nat
  telegram_user : String
  ig_handle : String
  payment : String
  country : String
  total : Rat
  items : List CartLine
  status : String
  deriving DecidableEq, Repr

/-- The `orders` table plus its AUTOINCREMENT counter. -/
structure Ledger where
  rows : List Order
  next_id : Nat
  deriving DecidableEq, Repr

/-- A freshly initialised database (AUTOINCREMENT starts at 1). -/
def empty_ledger : Ledger := ⟨[], 1⟩

/-- The per-user entry of the in-memory `CART` dict.  The Python dict keys
`last_strain`, `payment_method`, `country`, `ig_handle` may be absent,
modelled as `Option` fields defaulting to `none`; `state` is the literal
Python value (`None`, `"await_qty"`, `"await_ig"`, `"await_crypto_other"`). -/
structure Session where
  items : List CartLine
  state : Option String
  last_strain : Option String := none
  payment_method : Option String := none
  country : Option String := none
  ig_handle : Option String := none
  deriving DecidableEq, Repr

/-- `CART[uid] = \x7b"items": [], "state": None\x7d` — the lazily created entry. -/
def freshSession : Session := { items := [], state := none }

/-- The whole mutable state touched by one user's handlers: that user's
`CART` entry (absent = `none`) and the orders database. -/
structure World where
  cart : Option Session
  db : Ledger
  deriving DecidableEq, Repr

/-- Python exceptions that the handlers can raise. -/
inductive PyError where
  | keyError
  | indexError
  | nameError
  deriving DecidableEq, Repr

/-- Outbound Telegram actions produced by a handler.  `listStrains` is the
strain-selection menu (its option labels are the catalog names from
`get_strain_buttons`); `replyPhoto` is the strain-detail photo message of
`send_strain_details`; `editMessage` is `edit_text` appending to an admin
order card; `notifyOperator` is `bot.send_message` to `ADMIN_CHAT_ID`. -/
inductive Effect where
  | reply (text : String)
  | replyPhoto (caption : String)
  | editMessage (appended : String)
  | notifyOperator (text : String)
  | listStrains (options : List String)
  deriving DecidableEq, Repr

/-! ### Python string primitives used by the handlers -/

/-- Python `str.lower()` (ASCII, which covers every string the bot builds). -/
def pyLower (s : String) : String := String.mk (s.data.map Char.toLower)

/-- Python `str.upper()` (ASCII). -/
def pyUpper (s : String) : String := String.mk (s.data.map Char.toUpper)

/-- Python `str.strip()`: drop leading and trailing whitespace. -/
def pyStrip (s : String) : String :=
  String.mk (((s.data.dropWhile Char.isWhitespace).reverse.dropWhile
    Char.isWhitespace).reverse)

/-- Occurrence of `needle` as a contiguous substring of `hay`
(Python `needle in hay`). -/
def listContains (needle : List Char) : List Char → Bool
  | [] => needle.isEmpty
  | c :: t => needle.isPrefixOf (c :: t) || listContains needle t

/-- Python `needle in hay` on strings. -/
def pyIn (needle hay : String) : Bool := listContains needle.data hay.data

/-- Python `s.startswith(pre)`. -/
def pyStartswith (pre s : String) : Bool := pre.data.isPrefixOf s.data

/-! ### Pricing (handlers.py lines 79–88) -/

/-- handlers.py `calculate_subtotal`: tiered unit price by total cart
quantity (60 at 3+, else 80), times the total quantity. -/
def calculate_subtotal (items : List CartLine) : Int :=
  let total_qty := (items.map fun i => i.quantity).sum
  let price_per : Int := if 3 ≤ total_qty then 60 else 80
  total_qty * price_per

/-- handlers.py `calculate_price`: subtotal + flat shipping (40 for
`country.lower() == "usa"`, else 100) + a 5% fee iff the lowercased
payment method CONTAINS the substring `"paypal"`. -/
def calculate_price (items : List CartLine) (country payment_method : String) : Rat :=
  let subtotal : Rat := (calculate_subtotal items : Int)
  let shipping : Rat := if pyLower country = "usa" then 40 else 100
  let fee : Rat :=
    if pyIn "paypal" (pyLower payment_method) then 5 / 100 * (subtotal + shipping) else 0
  subtotal + shipping + fee

/-- Total cart quantity; used to state quantity-only dependence of pricing. -/
def totalQuantity (items : List CartLine) : Int :=
  (items.map fun i => i.quantity).sum

/-- Pricing formula restated from the spec's words (§4.1 Pricing Function),
with the surcharge condition as the code actually has it (substring test):
used as the spec-side of the refinement statement for the pricing claims. -/
def pricingSpec (total_qty : Int) (country payment_method : String) : Rat :=
  let unit : Rat := if 3 ≤ total_qty then 60 else 80
  let sub : Rat := (total_qty : Rat) * unit
  let ship : Rat := if pyLower country = "usa" then 40 else 100
  let sur : Rat :=
    if pyIn "paypal" (pyLower payment_method) then 5 / 100 * (sub + ship) else 0
  sub + ship + sur

/-! ### Database operations (handlers.py lines 90–113) -/

/-- handlers.py `save_order_to_db`: INSERT a row with status `'pending'`
and return the fresh rowid.  No duplicate check of any kind is performed. -/
def save_order_to_db (db : Ledger) (now : Nat)
    (telegram_user ig_handle payment country : String)
    (total : Rat) (items : List CartLine) : Ledger × Nat :=
  let oid := db.next_id
  (⟨db.rows ++ [⟨oid, now, telegram_user, ig_handle, payment, country, total, items, "pending"⟩],
    oid + 1⟩, oid)

/-- handlers.py `update_order_status`: UPDATE orders SET status WHERE id. -/
def update_order_status (db : Ledger) (order_id : Nat) (status : String) : Ledger :=
  ⟨db.rows.map fun o => if o.oid = order_id then { o with status := status } else o,
   db.next_id⟩

/-- handlers.py `delete_order`: DELETE FROM orders WHERE id. -/
def delete_order (db : Ledger) (order_id : Nat) : Ledger :=
  ⟨db.rows.filter fun o => o.oid ≠ order_id, db.next_id⟩

/-! ### Message texts (abbreviated from the source; logic-free presentation) -/

/-- Welcome text of `start_command` — the only place the age policy appears
in the code: a sentence of text, with no flag and no gating. -/
def welcome_text : String :=
  "Welcome to Clones Direct! Browse elite clones and build your custom order below. By using this bot, you confirm you are 21+ and in a legal area."

def faq_text : String := "Frequently Asked Questions ..."

def add_qty_prompt : String := "How many clones would you like to add? (Max 10)"

def payment_prompt : String := "Select payment method:"

def crypto_prompt : String := "Select your crypto:"

def crypto_other_prompt : String := "Enter the crypto token you wish to use (e.g., LTC)"

def country_prompt : String := "Where are you shipping to? This affects your total."

def ig_prompt : String := "Please enter your Instagram handle (e.g., @username)"

def removed_notice : String := "Item removed. Refreshing cart..."

def empty_cart_notice : String := "Your cart is empty."

def empty_cart_finalize_notice : String := "Your cart is empty. Add items first!"

def no_strain_notice : String := "No strain selected."

def confirm_success_text : String :=
  "Order confirmed! We have sent it for processing. We will reach out shortly."

/-- The soft-failure reply sent when the admin notification raises: the
order stays in the database ("Order recorded"). -/
def confirm_softfail_text : String :=
  "Order recorded, but we had trouble notifying our team. We have saved your order and will contact you soon via Instagram to confirm."

def cancel_text : String := "Order canceled. Start over with /start."

def noop_text : String := "No strains available. Contact support."

def unauthorized_text : String := "Unauthorized."

def buttons_text : String := "Please use the buttons or enter a valid command."

/-- Line items rendered `"<strain> x<qty>"`, comma-joined (display only). -/
def items_lines (items : List CartLine) : String :=
  String.intercalate ", " (items.map fun it => it.strain ++ " x" ++ toString it.quantity)

/-- Cart view text of the `view_cart` branch (includes the subtotal). -/
def cart_summary (items : List CartLine) : String :=
  "Your Cart: " ++ items_lines items ++ " Subtotal: $" ++ toString (calculate_subtotal items)

/-- Confirmation summary of `show_confirmation_summary`: renders the cart,
the uppercased country, the payment method, the Instagram handle VERBATIM,
and the computed total. -/
def summary_text (items : List CartLine) (country pm ig : String) (total : Rat) : String :=
  "Order Summary: " ++ items_lines items ++ " Shipping: " ++ pyUpper country ++
  " Payment: " ++ pm ++ " Instagram: " ++ ig ++ " Total: $" ++ toString total ++
  " By confirming, you verify you are 21+ and in a legal area. Proceed?"

/-- The operator notification text of the `confirm_order` branch: renders
the Telegram user, the Instagram handle VERBATIM, payment, country, total
and the line items. -/
def order_message (oid : Nat) (uname ig payment country : String)
    (total : Rat) (items : List CartLine) : String :=
  "New Order #" ++ toString oid ++ " Telegram: " ++ uname ++ " Instagram: " ++ ig ++
  " Payment: " ++ payment ++ " Shipping: " ++ country ++ " Total: $" ++ toString total ++
  " Items: " ++ items_lines items

/-- One order card of the `/orders` admin listing. -/
def order_line (o : Order) : String :=
  "Order #" ++ toString o.oid ++ " TG: " ++ o.telegram_user ++ " IG: " ++ o.ig_handle ++
  " Payment: " ++ o.payment ++ " Country: " ++ o.country ++ " Total: $" ++ toString o.total ++
  " Items: " ++ items_lines o.items

/-! ### Handlers -/

/-- Default of the `ADMIN_CHAT_ID` environment variable (handlers.py:14). -/
def ADMIN_CHAT_ID_default : String := "@clones_direct"

/-- The `admin_id` computation of `list_orders` (handlers.py:125):
`ADMIN_CHAT_ID.replace("@", "")` when it starts with `"@"`. -/
def admin_id_of (admin_chat_id : String) : String :=
  if pyStartswith "@" admin_chat_id then
    String.mk (admin_chat_id.data.filter fun c => c ≠ '@')
  else admin_chat_id

/-- handlers.py `list_orders` (the `/orders` command): rejects callers whose
chat id (as a string) differs from `admin_id` AND whose username is not
`"Clones_Direct"`; otherwise lists the pending rows.  The unauthorized
branch returns before the database is opened.  `chat_id_str` is the
already-stringified `str(update.effective_chat.id)`.  (This read-only
command returns only effects; it never mutates the ledger.) -/
def list_orders (admin_chat_id : String) (chat_id_str : String) (username : Option String)
    (db : Ledger) : List Effect :=
  let admin_id := admin_id_of admin_chat_id
  if chat_id_str ≠ admin_id ∧ username ≠ some "Clones_Direct" then
    [.reply unauthorized_text]
  else
    let orders := db.rows.filter fun o => o.status = "pending"
    if orders = [] then [.reply "No pending orders."]
    else orders.map fun o => .reply (order_line o)

/-- handlers.py `start_command`: unconditionally resets the user's `CART`
entry to a fresh session and sends the welcome menu (View Strains /
View Cart / FAQ buttons) — browsing is immediately available; the age
policy is only a sentence inside `welcome_text`. -/
def start_command (w : World) : World × List Effect :=
  ({ w with cart := some freshSession }, [.reply welcome_text])

/-- handlers.py `get_strain_buttons`, flattened: the option labels of the
strain-selection menu (a noop placeholder when the catalog is empty). -/
def strain_buttons (strains : List String) : List String :=
  if strains = [] then ["No strains available"] else strains

/-- Python `del items[idx]` guarded by `if idx < len(items)` exactly as in
the `remove_` branch (handlers.py:345–347): indices `≥ len` are silently
skipped; negative indices reach `del`, which uses Python negative indexing
and raises IndexError below `-len`. -/
def pyDelete (l : List CartLine) (idx : Int) : Except PyError (List CartLine) :=
  if idx < (l.length : Int) then
    if 0 ≤ idx then .ok (l.eraseIdx idx.toNat)
    else if -(l.length : Int) ≤ idx then .ok (l.eraseIdx (l.length - (-idx).toNat))
    else .error .indexError
  else .ok l

/-- The `view_cart` branch body (also reached by the recursive dispatch at
the end of the `remove_` branch, which re-enters `handle_callback_query`
with `data = "view_cart"`). -/
def view_cart_reply (items : List CartLine) : List Effect :=
  if items = [] then [.reply empty_cart_notice]
  else [.reply (cart_summary items)]

/-- handlers.py `show_confirmation_summary`: stores the supplied Instagram
handle VERBATIM in `CART[uid]["ig_handle"]`, resets `state`, and renders
the summary with `calculate_price`; reading a missing `country` /
`payment_method` key raises KeyError. -/
def show_confirmation_summary (cart : Session) (ig_handle : String) :
    Except PyError (Session × List Effect) :=
  let cart := { cart with ig_handle := some ig_handle, state := none }
  match cart.country, cart.payment_method with
  | some country, some pm =>
    let total := calculate_price cart.items country pm
    .ok (cart, [.reply (summary_text cart.items country pm ig_handle total)])
  | _, _ => .error .keyError

/-- The parsed form of a callback-query `data` string (handlers.py:276–434).
`qty` and `removeItem` carry the `int(...)`-parsed numeric suffix;
`payment` carries `data.split("_")[1]` (so `payment_mail_in` yields
`"mail"`); `crypto` carries the suffix after `crypto_`; `country` carries
the whole data string, compared against `"country_usa"`. -/
inductive Event where
  | completeOrder (order_id : Nat)
  | deleteOrder (order_id : Nat)
  | strainSelect (idx : Nat)
  | qty (q : Int)
  | viewStrains
  | faq
  | viewCart
  | removeItem (idx : Int)
  | finalizeOrder
  | payment (method : String)
  | crypto (token : String)
  | country (data : String)
  | skipIg
  | confirmOrder
  | cancelOrder
  | addQuantity
  | noop
  deriving DecidableEq, Repr

/-- handlers.py `handle_callback_query`.  Parameters: `strains` is the
loaded catalog's name list (sorted at startup), `now` the clock value used
for the inserted row's timestamp, `uname` the caller's rendered Telegram
name (`@username` or first name), `notify_ok` whether
`bot.send_message(ADMIN_CHAT_ID, ...)` succeeds.  The handler first
get-or-creates the caller's `CART` entry.  Note that the admin
`complete_`/`delete_` branches perform NO authorization check. -/
def handle_callback_query (strains : List String) (now : Nat) (uname : String)
    (notify_ok : Bool) (w : World) (ev : Event) : Except PyError (World × List Effect) :=
  let cart := w.cart.getD freshSession
  match ev with
  | .completeOrder oid =>
    .ok ({ w with cart := some cart, db := update_order_status w.db oid "completed" },
         [.editMessage "Marked as completed."])
  | .deleteOrder oid =>
    .ok ({ w with cart := some cart, db := delete_order w.db oid },
         [.editMessage "Deleted."])
  | .strainSelect idx =>
    match strains.get? idx with
    | none => .error .indexError
    | some name =>
      .ok ({ w with cart := some { cart with last_strain := some name } },
           [.replyPhoto name])
  | .qty q =>
    match cart.last_strain with
    | none => .ok ({ w with cart := some cart }, [.reply no_strain_notice])
    | some s =>
      let cart := { cart with items := cart.items ++ [CartLine.mk s q],
                              last_strain := none, state := none }
      .ok ({ w with cart := some cart },
           [.reply ("Added " ++ s ++ " x" ++ toString q ++ " to your cart!")])
  | .viewStrains =>
    .ok ({ w with cart := some cart }, [.listStrains (strain_buttons strains)])
  | .faq => .ok ({ w with cart := some cart }, [.reply faq_text])
  | .viewCart => .ok ({ w with cart := some cart }, view_cart_reply cart.items)
  | .removeItem idx =>
    match pyDelete cart.items idx with
    | .error e => .error e
    | .ok items' =>
      let cart := { cart with items := items' }
      .ok ({ w with cart := some cart }, .reply removed_notice :: view_cart_reply cart.items)
  | .finalizeOrder =>
    if cart.items = [] then
      .ok ({ w with cart := some cart }, [.reply empty_cart_finalize_notice])
    else .ok ({ w with cart := some cart }, [.reply payment_prompt])
  | .payment method =>
    if method = "crypto" then
      .ok ({ w with cart := some cart }, [.reply crypto_prompt])
    else
      let pm := if method = "paypal" then "PayPal" else "Mail In"
      let cart := { cart with payment_method := some pm }
      .ok ({ w with cart := some cart }, [.reply country_prompt])
  | .crypto token =>
    if token = "other" then
      .ok ({ w with cart := some { cart with state := some "await_crypto_other" } },
           [.reply crypto_other_prompt])
    else
      let cart := { cart with payment_method := some ("Crypto - " ++ pyUpper token) }
      .ok ({ w with cart := some cart }, [.reply country_prompt])
  | .country data =>
    let c := if data = "country_usa" then "USA" else "International"
    .ok ({ w with cart := some { cart with country := some c, state := some "await_ig" } },
         [.reply ig_prompt])
  | .skipIg =>
    match show_confirmation_summary cart "N/A" with
    | .error e => .error e
    | .ok (cart', effs) => .ok ({ w with cart := some cart' }, effs)
  | .confirmOrder =>
    match cart.ig_handle, cart.payment_method, cart.country with
    | some ig, some payment, some country =>
      let total := calculate_price cart.items country payment
      let res := save_order_to_db w.db now uname ig payment country total cart.items
      let msg := order_message res.2 uname ig payment country total cart.items
      if notify_ok then
        .ok (⟨none, res.1⟩, [.notifyOperator msg, .reply confirm_success_text])
      else
        .ok (⟨none, res.1⟩, [.reply confirm_softfail_text])
    | _, _, _ => .error .keyError
  | .cancelOrder => .ok ({ w with cart := none }, [.reply cancel_text])
  | .addQuantity =>
    .ok ({ w with cart := some { cart with state := some "await_qty" } },
         [.reply add_qty_prompt])
  | .noop => .ok ({ w with cart := some cart }, [.reply noop_text])

/-- The keyword→action dict iterated by `handle_text` (handlers.py:256–259),
in insertion order. -/
def KEYWORD_ACTIONS : List (String × String) :=
  [("clones", "view_strains"), ("strains", "view_strains"), ("menu", "view_strains"),
   ("how much", "faq"), ("faq", "faq")]

/-- First keyword of the dict occurring in the lowercased text, if any. -/
def keyword_action (text : String) : Option String :=
  (KEYWORD_ACTIONS.find? fun kv => pyIn kv.1 (pyLower text)).map fun kv => kv.2

/-- handlers.py `handle_text`: strips the text, get-or-creates the session,
then (1) a keyword match calls `handle_callback_query_from_text`, which
references the undefined global `context` and therefore raises NameError;
(2) in state `"await_ig"` the stripped text is stored verbatim as the
Instagram handle via `show_confirmation_summary`; (3) in state
`"await_crypto_other"` it becomes the payment method `"Crypto - " + upper`;
(4) otherwise a generic prompt is sent. -/
def handle_text (w : World) (raw : String) : Except PyError (World × List Effect) :=
  let text := pyStrip raw
  let cart := w.cart.getD freshSession
  match keyword_action text with
  | some _ => .error .nameError
  | none =>
    if cart.state = some "await_ig" then
      match show_confirmation_summary cart text with
      | .error e => .error e
      | .ok (cart', effs) => .ok ({ w with cart := some cart' }, effs)
    else if cart.state = some "await_crypto_other" then
      .ok ({ w with cart := some { cart with
              payment_method := some ("Crypto - " ++ pyUpper text), state := none } },
           [.reply country_prompt])
    else .ok ({ w with cart := some cart }, [.reply buttons_text])

/-! ### Decidable equality for handler results -/

instance {ε α : Type} [DecidableEq ε] [DecidableEq α] : DecidableEq (Except ε α) := fun x y =>
  match x, y with
  | .ok a, .ok b =>
    if h : a = b then isTrue (by rw [h]) else isFalse (by intro he; cases he; exact h rfl)
  | .error a, .error b =>
    if h : a = b then isTrue (by rw [h]) else isFalse (by intro he; cases he; exact h rfl)
  | .ok _, .error _ => isFalse (by intro h; cases h)
  | .error _, .ok _ => isFalse (by intro h; cases h)

/-! ### Concrete scenario inputs used by counterexamples and witnesses -/

/-- A session ready to confirm: cart of 2 clones, PayPal, USA. -/
def cartC1 : Session :=
  { items := [CartLine.mk "GG4" 2], state := none,
    payment_method := some "PayPal", country := some "USA", ig_handle := some "@alice_ig" }

/-- A pending order for buyer `"@alice"` created at clock 0. -/
def orderC1a : Order :=
  Order.mk 1 0 "@alice" "@alice_ig" "PayPal" "USA" 210 [CartLine.mk "GG4" 2] "pending"

/-- The second, duplicate order the code inserts at clock 3600 (1 hour later). -/
def orderC1b : Order :=
  Order.mk 2 3600 "@alice" "@alice_ig" "PayPal" "USA" 210 [CartLine.mk "GG4" 2] "pending"

/-- A ledger already holding `orderC1a`. -/
def dbC1 : Ledger := ⟨[orderC1a], 2⟩

/-- A session awaiting a free-text crypto token. -/
def cartC2 : Session := { items := [CartLine.mk "GG4" 2], state := some "await_crypto_other" }

/-- A cart with one existing line of the strain about to be added again. -/
def cartC5w : Session :=
  { items := [CartLine.mk "Zookies" 2], state := some "await_qty", last_strain := some "Zookies" }

/-- A pending order of another buyer, exposed to unauthorized deletion. -/
def orderC6 : Order :=
  Order.mk 1 0 "@victim" "N/A" "Mail In" "USA" 200 [CartLine.mk "GG4" 2] "pending"

/-- A ledger holding `orderC6`. -/
def dbC6 : Ledger := ⟨[orderC6], 2⟩

/-- A session ready to confirm with Mail In / International. -/
def cartC7 : Session :=
  { items := [CartLine.mk "Blue Dream" 3], state := none,
    payment_method := some "Mail In", country := some "International",
    ig_handle := some "@bobIG" }

/-- A one-line cart targeted by out-of-range and negative removals. -/
def cartC8 : Session := { items := [CartLine.mk "GG4" 1], state := none }

/-- A two-line cart targeted by an out-of-range removal. -/
def cartC8w : Session := { items := [CartLine.mk "Zookies" 2], state := none }

/-- A session in the awaiting-contact stage (state `"await_ig"`). -/
def cartC9 : Session :=
  { items := [CartLine.mk "GG4" 2], state := some "await_ig",
    payment_method := some "PayPal", country := some "USA" }

/-- Another awaiting-contact session, for the benign-contact witness. -/
def cartC9w : Session :=
  { items := [CartLine.mk "GMO" 1], state := some "await_ig",
    payment_method := some "Crypto - BTC", country := some "International" }

/-! ### Claims -/

/-- Claim C2 (corrected), counterexample: the claim says the surcharge is 0
for any payment method other than PayPal, but `calculate_price` tests
`"paypal" in payment_method.lower()`, a substring match.  The method string
`"Crypto - PAYPAL"` — reachable by answering `"paypal"` at the
free-text crypto-token prompt, as the last conjunct shows — is not
`"PayPal"`, yet its total 210 includes the 5% fee (the fee-free total
would be 160 + 40 = 200). -/
theorem C2_counterexample :
    calculate_price [CartLine.mk "GG4" 2] "USA" "Crypto - PAYPAL" = 210 ∧
    (210 : Rat) ≠ (160 : Rat) + 40 ∧
    "Crypto - PAYPAL" ≠ "PayPal" ∧
    handle_text ⟨some cartC2, empty_ledger⟩ "paypal" =
      .ok (⟨some { cartC2 with payment_method := some "Crypto - PAYPAL", state := none },
        empty_ledger⟩, [.reply country_prompt]) := by
  refine ⟨?_, by norm_num, by decide, ?_⟩
  · have h2 : pyLower "USA" = "usa" := by decide
    have h3 : pyIn "paypal" (pyLower "Crypto - PAYPAL") = true := by decide
    simp [calculate_price, calculate_subtotal, h2, h3]
    norm_num
  · have hk : keyword_action (pyStrip "paypal") = none := by decide
    have hu : "Crypto - " ++ pyUpper (pyStrip "paypal") = "Crypto - PAYPAL" := by decide
    simp [handle_text, hk, hu, cartC2]

/-- Claim C2 (amended): the computed total is subtotal + shipping +
surcharge with the tiered unit price (60 from total quantity 3, else 80),
flat shipping 40 for USA and 100 otherwise, and the 5% surcharge applied
exactly when the lowercased payment method contains the substring
`"paypal"` (hence for `"PayPal"` itself, and also for free-text crypto
tokens spelling paypal); the §8 scenario (quantity 2, USA, PayPal) totals
160 + 40 + 0.05·200 = 210. -/
theorem C2_pricing_formula :
    (∀ (items : List CartLine) (country payment_method : String),
      calculate_price items country payment_method =
        pricingSpec (totalQuantity items) country payment_method) ∧
    calculate_price [CartLine.mk "Sour Tropicookies" 2] "USA" "PayPal" = 210 := by
  constructor
  · intro items country payment_method
    simp only [calculate_price, pricingSpec, calculate_subtotal, totalQuantity]
    split_ifs <;> push_cast <;> ring
  · have h2 : pyLower "USA" = "usa" := by decide
    have h3 : pyIn "paypal" (pyLower "PayPal") = true := by decide
    simp [calculate_price, calculate_subtotal, h2, h3]
    norm_num

/-- Claim C10 (confirmed): `calculate_price` depends on the cart only
through its total quantity — two carts with the same total quantity, the
same country and the same payment method yield the same total, however the
quantity is split across lines and whatever the strains are. -/
theorem C10_price_depends_only_on_total (items1 items2 : List CartLine)
    (country pm : String) (h : totalQuantity items1 = totalQuantity items2) :
    calculate_price items1 country pm = calculate_price items2 country pm := by
  have hsub : calculate_subtotal items1 = calculate_subtotal items2 := by
    simp only [calculate_subtotal]
    simp only [totalQuantity] at h
    rw [h]
  simp only [calculate_price, hsub]

/-- Claim C10 witness: one line of 3 versus two lines summing to 3. -/
theorem C10_witness :
    calculate_price [CartLine.mk "Apple Fritter" 1, CartLine.mk "GG4" 2] "USA" "PayPal" =
      calculate_price [CartLine.mk "Zookies" 3] "USA" "PayPal" :=
  C10_price_depends_only_on_total [CartLine.mk "Apple Fritter" 1, CartLine.mk "GG4" 2]
    [CartLine.mk "Zookies" 3] "USA" "PayPal" (by decide)

/-- Claim C3 (corrected), counterexample: the code maintains no
`age_confirmed` flag and offers no age-confirmation event at all, so a
brand-new session (which certainly has not confirmed age) gets the
catalog-listing effect — not a confirmation re-prompt — on its very first
`view_strains` event. -/
theorem C3_counterexample :
    handle_callback_query ["Apple Fritter"] 0 "@newuser" true ⟨none, empty_ledger⟩ .viewStrains =
      .ok (⟨some freshSession, empty_ledger⟩, [.listStrains ["Apple Fritter"]]) := by
  decide

/-- Claim C3 (amended): there is no age gate.  Sessions carry no
`age_confirmed` flag; `view_strains` yields the catalog-listing effect for
EVERY session, fresh or not; `start_command` merely resets the session and
sends a welcome message whose text asserts the age policy. -/
theorem C3_no_age_gate :
    (∀ (strains : List String) (now : Nat) (uname : String) (nok : Bool) (w : World),
      handle_callback_query strains now uname nok w .viewStrains =
        .ok (⟨some (w.cart.getD freshSession), w.db⟩, [.listStrains (strain_buttons strains)])) ∧
    (∀ w : World, start_command w = ({ w with cart := some freshSession }, [.reply welcome_text])) := by
  constructor
  · intro strains now uname nok w
    cases w with
    | mk c db => simp [handle_callback_query]
  · intro w
    rfl

/-- Claim C4 (corrected), counterexample: a quantity of 0 (not a positive
integer) supplied while a selection is pending is NOT rejected — the
handler appends a quantity-0 line, changing the cart. -/
theorem C4_counterexample :
    handle_callback_query [] 0 "@u" true
      ⟨some { items := [], state := some "await_qty", last_strain := some "GG4" }, empty_ledger⟩
      (.qty 0) =
      .ok (⟨some { items := [CartLine.mk "GG4" 0], state := none }, empty_ledger⟩,
        [.reply ("Added " ++ "GG4" ++ " x" ++ toString (0 : Int) ++ " to your cart!")]) ∧
    [CartLine.mk "GG4" 0] ≠ ([] : List CartLine) := by
  refine ⟨by decide, by decide⟩

/-- Claim C4 (amended): the quantity branch performs no validation of the
numeric value — while a selection is pending, ANY integer `n` carried by a
`qty_` callback (the inline keyboard only offers 1–10, but the handler
parses whatever arrives) is appended to the cart as a line of quantity
`n`; only the absence of a pending selection is rejected, with a notice
and an unchanged cart. -/
theorem C4_no_quantity_validation (strains : List String) (now : Nat) (uname : String)
    (nok : Bool) (db : Ledger) (cart : Session) (n : Int) :
    (cart.last_strain = none →
      handle_callback_query strains now uname nok ⟨some cart, db⟩ (.qty n) =
        .ok (⟨some cart, db⟩, [.reply no_strain_notice])) ∧
    (∀ s : String, cart.last_strain = some s →
      handle_callback_query strains now uname nok ⟨some cart, db⟩ (.qty n) =
        .ok (⟨some { cart with
            items := cart.items ++ [CartLine.mk s n],
            last_strain := none, state := none }, db⟩,
          [.reply ("Added " ++ s ++ " x" ++ toString n ++ " to your cart!")])) := by
  constructor
  · intro h
    simp [handle_callback_query, h]
  · intro s h
    simp [handle_callback_query, h]

/-- Claim C4 witness: with no pending selection, an invalid quantity is
answered with the no-selection notice and the cart is untouched. -/
theorem C4_witness :
    handle_callback_query [] 0 "@u" true ⟨some freshSession, empty_ledger⟩ (.qty (-5)) =
      .ok (⟨some freshSession, empty_ledger⟩, [.reply no_strain_notice]) :=
  (C4_no_quantity_validation [] 0 "@u" true empty_ledger freshSession (-5)).1 rfl

/-- Claim C5 (corrected), counterexample: adding quantity 3 of `"GG4"` to a
cart that already holds a `"GG4"` line of quantity 2 yields TWO `"GG4"`
lines (the handler appends), not one merged line of quantity 5. -/
theorem C5_counterexample :
    handle_callback_query [] 0 "@u" true
      ⟨some { items := [CartLine.mk "GG4" 2], state := none, last_strain := some "GG4" },
        empty_ledger⟩ (.qty 3) =
      .ok (⟨some { items := [CartLine.mk "GG4" 2, CartLine.mk "GG4" 3], state := none },
        empty_ledger⟩,
        [.reply ("Added " ++ "GG4" ++ " x" ++ toString (3 : Int) ++ " to your cart!")]) ∧
    [CartLine.mk "GG4" 2, CartLine.mk "GG4" 3].length = 2 := by
  refine ⟨by decide, rfl⟩

/-- Claim C5 (amended): successfully supplying quantity `n` for a pending
selection APPENDS a new line `(item, n)` to the cart — even when a line
for the same item already exists, producing duplicate lines rather than
merging quantities; the pending selection is cleared and the state returns
to `None` (browsing). -/
theorem C5_append_not_merge (strains : List String) (now : Nat) (uname : String)
    (nok : Bool) (db : Ledger) (cart : Session) (n : Int) (s : String)
    (h : cart.last_strain = some s) :
    handle_callback_query strains now uname nok ⟨some cart, db⟩ (.qty n) =
      .ok (⟨some { cart with
          items := cart.items ++ [CartLine.mk s n],
          last_strain := none, state := none }, db⟩,
        [.reply ("Added " ++ s ++ " x" ++ toString n ++ " to your cart!")]) := by
  simp [handle_callback_query, h]

/-- Claim C5 witness: appending `"Zookies"` x3 to a cart already holding
`"Zookies"` x2. -/
theorem C5_witness :
    handle_callback_query [] 0 "@dave" true ⟨some cartC5w, empty_ledger⟩ (.qty 3) =
      .ok (⟨some { cartC5w with
          items := cartC5w.items ++ [CartLine.mk "Zookies" 3],
          last_strain := none, state := none }, empty_ledger⟩,
        [.reply ("Added " ++ "Zookies" ++ " x" ++ toString (3 : Int) ++ " to your cart!")]) :=
  C5_append_not_merge [] 0 "@dave" true empty_ledger cartC5w 3 "Zookies" rfl

/-- Claim C8 (corrected), counterexample: removal index −1 on a one-line
cart is NOT a no-op — Python negative indexing deletes the last line, so
the cart becomes empty. -/
theorem C8_counterexample :
    handle_callback_query [] 0 "@u" true ⟨some cartC8, empty_ledger⟩ (.removeItem (-1)) =
      .ok (⟨some { items := [], state := none }, empty_ledger⟩,
        [.reply removed_notice, .reply empty_cart_notice]) ∧
    cartC8.items ≠ ([] : List CartLine) := by
  refine ⟨by decide, by decide⟩

/-- Claim C8 (amended): for removal index `i ≥ length` the cart is left
unchanged and the notice plus a refreshed cart view are sent; but a
NEGATIVE index is not a no-op: Python indexing applies, deleting the
`(length + i)`-th line when `-length ≤ i < 0`, and raising IndexError when
`i < -length`. -/
theorem C8_remove_semantics (strains : List String) (now : Nat) (uname : String)
    (nok : Bool) (db : Ledger) (cart : Session) (i : Int) :
    ((cart.items.length : Int) ≤ i →
      handle_callback_query strains now uname nok ⟨some cart, db⟩ (.removeItem i) =
        .ok (⟨some cart, db⟩, .reply removed_notice :: view_cart_reply cart.items)) ∧
    (i < -(cart.items.length : Int) →
      handle_callback_query strains now uname nok ⟨some cart, db⟩ (.removeItem i) =
        .error .indexError) ∧
    (i < 0 → -(cart.items.length : Int) ≤ i →
      handle_callback_query strains now uname nok ⟨some cart, db⟩ (.removeItem i) =
        .ok (⟨some { cart with items := cart.items.eraseIdx (cart.items.length - (-i).toNat) },
          db⟩,
          .reply removed_notice ::
            view_cart_reply (cart.items.eraseIdx (cart.items.length - (-i).toNat)))) := by
  refine ⟨fun h => ?_, fun h => ?_, fun h1 h2 => ?_⟩
  · have hd : pyDelete cart.items i = .ok cart.items := by
      simp only [pyDelete]
      rw [if_neg (by omega)]
    simp [handle_callback_query, hd]
  · have hd : pyDelete cart.items i = .error .indexError := by
      simp only [pyDelete]
      rw [if_pos (by omega), if_neg (by omega), if_neg (by omega)]
    simp [handle_callback_query, hd]
  · have hd : pyDelete cart.items i =
        .ok (cart.items.eraseIdx (cart.items.length - (-i).toNat)) := by
      simp only [pyDelete]
      rw [if_pos (by omega), if_neg (by omega), if_pos (by omega)]
    simp [handle_callback_query, hd]

/-- Claim C8 witness: index 5 on a one-line cart is a no-op with the
notice and the (unchanged) cart view. -/
theorem C8_witness :
    handle_callback_query [] 0 "@carol" true ⟨some cartC8w, empty_ledger⟩ (.removeItem 5) =
      .ok (⟨some cartC8w, empty_ledger⟩,
        .reply removed_notice :: view_cart_reply cartC8w.items) :=
  (C8_remove_semantics [] 0 "@carol" true empty_ledger cartC8w 5).1 (by decide)

/-- Claim C1 (corrected), counterexample: with a pending order for buyer
`"@alice"` already in the ledger (created at clock 0), a second `confirm`
for the same buyer at clock 3600 — one hour later, well inside 24 hours —
succeeds: no `DuplicateOrderError` exists anywhere in the code, a second
row is inserted (the ledger now holds two pending rows for the same
buyer, 3600 seconds apart), and the user receives the success reply. -/
theorem C1_counterexample :
    (handle_callback_query [] 3600 "@alice" true ⟨some cartC1, dbC1⟩ .confirmOrder =
      .ok (⟨none, ⟨[orderC1a, orderC1b], 3⟩⟩,
        [.notifyOperator (order_message 2 "@alice" "@alice_ig" "PayPal" "USA" 210
          [CartLine.mk "GG4" 2]), .reply confirm_success_text])) ∧
    orderC1a.status = "pending" ∧ orderC1b.status = "pending" ∧
    orderC1a.telegram_user = orderC1b.telegram_user ∧
    orderC1b.timestamp - orderC1a.timestamp < 86400 := by
  have hp : calculate_price [CartLine.mk "GG4" 2] "USA" "PayPal" = 210 := by
    have h2 : pyLower "USA" = "usa" := by decide
    have h3 : pyIn "paypal" (pyLower "PayPal") = true := by decide
    simp [calculate_price, calculate_subtotal, h2, h3]
    norm_num
  refine ⟨?_, rfl, rfl, rfl, by decide⟩
  simp [handle_callback_query, cartC1, dbC1, save_order_to_db, hp, orderC1a, orderC1b]

/-- Claim C1 (amended): `confirm` performs no duplicate check at all.
Whatever the ledger already contains — in particular a pending order for
the same buyer created any time earlier — it always inserts exactly one
new row with status `"pending"` and reports success (or the soft-failure
message when the operator notification fails); it never rejects. -/
theorem C1_confirm_always_inserts (strains : List String) (now : Nat) (uname : String)
    (notify_ok : Bool) (db : Ledger) (cart : Session) (ig pm ctry : String)
    (h1 : cart.ig_handle = some ig) (h2 : cart.payment_method = some pm)
    (h3 : cart.country = some ctry) :
    handle_callback_query strains now uname notify_ok ⟨some cart, db⟩ .confirmOrder =
      .ok (⟨none, ⟨db.rows ++ [Order.mk db.next_id now uname ig pm ctry
            (calculate_price cart.items ctry pm) cart.items "pending"], db.next_id + 1⟩⟩,
        if notify_ok then
          [.notifyOperator (order_message db.next_id uname ig pm ctry
            (calculate_price cart.items ctry pm) cart.items), .reply confirm_success_text]
        else [.reply confirm_softfail_text]) := by
  simp [handle_callback_query, h1, h2, h3, save_order_to_db]
  cases notify_ok <;> simp

/-- Claim C1 witness: the amended statement applied to the duplicate
scenario of the counterexample. -/
theorem C1_witness :
    handle_callback_query [] 3600 "@alice" true ⟨some cartC1, dbC1⟩ .confirmOrder =
      .ok (⟨none, ⟨dbC1.rows ++ [Order.mk dbC1.next_id 3600 "@alice" "@alice_ig" "PayPal" "USA"
            (calculate_price cartC1.items "USA" "PayPal") cartC1.items "pending"],
          dbC1.next_id + 1⟩⟩,
        if true then
          [.notifyOperator (order_message dbC1.next_id "@alice" "@alice_ig" "PayPal" "USA"
            (calculate_price cartC1.items "USA" "PayPal") cartC1.items),
           .reply confirm_success_text]
        else [.reply confirm_softfail_text]) :=
  C1_confirm_always_inserts [] 3600 "@alice" true dbC1 cartC1 "@alice_ig" "PayPal" "USA"
    rfl rfl rfl

/-- Claim C6 (corrected), counterexample: the `delete_` callback branch
checks nothing about the caller — `handle_callback_query` does not even
receive the caller's chat id or username, and any user who sends the
callback data `delete_1` removes the pending order of another buyer from
the ledger, with a success edit instead of a rejection. -/
theorem C6_counterexample :
    handle_callback_query [] 0 "@intruder" true ⟨none, dbC6⟩ (.deleteOrder 1) =
      .ok (⟨some freshSession, ⟨[], 2⟩⟩, [.editMessage "Deleted."]) := by
  decide

/-- Claim C6 (amended): only the `/orders` LISTING is authorization-gated —
a caller whose chat id string differs from the configured admin id and
whose username is not `"Clones_Direct"` receives exactly the rejection
reply, whatever the ledger holds; the complete/delete callback operations
are NOT gated and mutate the ledger for every caller. -/
theorem C6_auth_gate_only_listing (admin_chat_id chat_id_str : String)
    (username : Option String) (db : Ledger) :
    (chat_id_str ≠ admin_id_of admin_chat_id ∧ username ≠ some "Clones_Direct" →
      list_orders admin_chat_id chat_id_str username db = [.reply unauthorized_text]) ∧
    (∀ (strains : List String) (now : Nat) (uname : String) (nok : Bool)
        (w : World) (oid : Nat),
      handle_callback_query strains now uname nok w (.deleteOrder oid) =
        .ok (⟨some (w.cart.getD freshSession), delete_order w.db oid⟩,
          [.editMessage "Deleted."]) ∧
      handle_callback_query strains now uname nok w (.completeOrder oid) =
        .ok (⟨some (w.cart.getD freshSession), update_order_status w.db oid "completed"⟩,
          [.editMessage "Marked as completed."])) := by
  constructor
  · intro h
    simp only [list_orders]
    rw [if_pos h]
  · intro strains now uname nok w oid
    cases w with
    | mk c ledger => exact ⟨by simp [handle_callback_query], by simp [handle_callback_query]⟩

/-- Claim C6 witness: an unknown caller (chat id string `"555"`, no
username) asking for the listing gets only the rejection reply. -/
theorem C6_witness :
    list_orders "@clones_direct" "555" none dbC6 = [.reply unauthorized_text] :=
  (C6_auth_gate_only_listing "@clones_direct" "555" none dbC6).1 (by decide)

/-- Claim C7 (confirmed): when the insert has succeeded and the operator
notification then fails (`notify_ok = false`), the handler still returns
success with the soft-failure reply, and the new row — status `"pending"`
— is committed in the resulting ledger; nothing is rolled back or
deleted. -/
theorem C7_commit_despite_notify_failure (strains : List String) (now : Nat)
    (uname : String) (db : Ledger) (cart : Session) (ig pm ctry : String)
    (h1 : cart.ig_handle = some ig) (h2 : cart.payment_method = some pm)
    (h3 : cart.country = some ctry) :
    handle_callback_query strains now uname false ⟨some cart, db⟩ .confirmOrder =
      .ok (⟨none, ⟨db.rows ++ [Order.mk db.next_id now uname ig pm ctry
            (calculate_price cart.items ctry pm) cart.items "pending"], db.next_id + 1⟩⟩,
        [.reply confirm_softfail_text]) ∧
    (Order.mk db.next_id now uname ig pm ctry
        (calculate_price cart.items ctry pm) cart.items "pending").status = "pending" ∧
    Order.mk db.next_id now uname ig pm ctry
        (calculate_price cart.items ctry pm) cart.items "pending" ∈
      db.rows ++ [Order.mk db.next_id now uname ig pm ctry
        (calculate_price cart.items ctry pm) cart.items "pending"] := by
  refine ⟨?_, rfl, by simp⟩
  simp [handle_callback_query, h1, h2, h3, save_order_to_db]

/-- Claim C7 witness: a Mail In / International order whose notification
fails stays committed with the soft-failure reply. -/
theorem C7_witness :
    handle_callback_query [] 42 "@bob" false ⟨some cartC7, empty_ledger⟩ .confirmOrder =
      .ok (⟨none, ⟨empty_ledger.rows ++ [Order.mk empty_ledger.next_id 42 "@bob" "@bobIG"
            "Mail In" "International" (calculate_price cartC7.items "International" "Mail In")
            cartC7.items "pending"], empty_ledger.next_id + 1⟩⟩,
        [.reply confirm_softfail_text]) ∧
    (Order.mk empty_ledger.next_id 42 "@bob" "@bobIG" "Mail In" "International"
        (calculate_price cartC7.items "International" "Mail In") cartC7.items
        "pending").status = "pending" ∧
    Order.mk empty_ledger.next_id 42 "@bob" "@bobIG" "Mail In" "International"
        (calculate_price cartC7.items "International" "Mail In") cartC7.items "pending" ∈
      empty_ledger.rows ++ [Order.mk empty_ledger.next_id 42 "@bob" "@bobIG" "Mail In"
        "International" (calculate_price cartC7.items "International" "Mail In")
        cartC7.items "pending"] :=
  C7_commit_despite_notify_failure [] 42 "@bob" empty_ledger cartC7 "@bobIG" "Mail In"
    "International" rfl rfl rfl

/-- Claim C9 (corrected), counterexample: the contact text
`"  <b>pwn</b>  "` supplied in the awaiting-contact stage is stored and
rendered as `"<b>pwn</b>"` — only whitespace-stripped.  The HTML
metacharacter `<` (the downstream summary and operator notification are
sent with HTML parse mode) survives into the stored handle and the
rendered summary, so no restriction to a safe character class happens. -/
theorem C9_counterexample :
    (handle_text ⟨some cartC9, empty_ledger⟩ "  <b>pwn</b>  " =
      .ok (⟨some { cartC9 with state := none, ig_handle := some "<b>pwn</b>" }, empty_ledger⟩,
        [.reply (summary_text [CartLine.mk "GG4" 2] "USA" "PayPal" "<b>pwn</b>" 210)])) ∧
    '<' ∈ "<b>pwn</b>".data := by
  have hp : calculate_price [CartLine.mk "GG4" 2] "USA" "PayPal" = 210 := by
    have h2 : pyLower "USA" = "usa" := by decide
    have h3 : pyIn "paypal" (pyLower "PayPal") = true := by decide
    simp [calculate_price, calculate_subtotal, h2, h3]
    norm_num
  have hs : pyStrip "  <b>pwn</b>  " = "<b>pwn</b>" := by decide
  have hk : keyword_action "<b>pwn</b>" = none := by decide
  refine ⟨?_, by decide⟩
  simp [handle_text, hs, hk, show_confirmation_summary, hp, cartC9]

/-- Claim C9 (amended): no character-class sanitization exists — for every
contact text that reaches the awaiting-contact storage path (i.e. that
does not contain one of the text-shortcut keywords), the handle stored in
the session and rendered into the confirmation summary is EXACTLY the
whitespace-stripped input, passed through verbatim. -/
theorem C9_contact_stored_verbatim (db : Ledger) (raw : String) (cart : Session)
    (pm ctry : String) (hst : cart.state = some "await_ig")
    (hk : keyword_action (pyStrip raw) = none)
    (h2 : cart.payment_method = some pm) (h3 : cart.country = some ctry) :
    handle_text ⟨some cart, db⟩ raw =
      .ok (⟨some { cart with ig_handle := some (pyStrip raw), state := none }, db⟩,
        [.reply (summary_text cart.items ctry pm (pyStrip raw)
          (calculate_price cart.items ctry pm))]) := by
  simp [handle_text, hk, hst, show_confirmation_summary, h2, h3]

/-- Claim C9 witness: the benign contact `"  @buyer1  "` is stored as its
stripped form `"@buyer1"`. -/
theorem C9_witness :
    handle_text ⟨some cartC9w, empty_ledger⟩ "  @buyer1  " =
      .ok (⟨some { cartC9w with ig_handle := some (pyStrip "  @buyer1  "), state := none },
        empty_ledger⟩,
        [.reply (summary_text cartC9w.items "International" "Crypto - BTC"
          (pyStrip "  @buyer1  ")
          (calculate_price cartC9w.items "International" "Crypto - BTC"))]) :=
  C9_contact_stored_verbatim empty_ledger "  @buyer1  " cartC9w "Crypto - BTC" "International"
    rfl (by decide) rfl rfl
